import Mathlib

/-!
# Shallow embedding of the careq triage-priority scheduling engine

This file embeds, in Lean, the core of the `careq` backend:

* `backend/triage.py` — the rule-based severity scorer;
* `backend/ai_predictor.py` — the adaptive wait-time estimator with its
  bounded feedback store;
* `backend/app.py` — the queue ordering used by the API and the
  notification rescheduling routine;
* `backend/db.py` — the patient record shape.

Modelling conventions:

* Python `int` is `Int` (or `Nat` where the value is a count);
  Python `float` arithmetic on these small values is modelled with `ℚ`.
* Python strings are sequences of code points, so `str.lower`, `str.strip`
  and `str.startswith` are modelled on the underlying character list
  (`String.data`); Lean's byte-position based `String.trim`/`startsWith`
  are avoided because they are not definitionally transparent.
* Wall-clock reads (`datetime.now()`) become explicit parameters: an
  integer timestamp in seconds for the scheduler, and an `(hour, weekday)`
  pair for the time-of-day features.
* Code that can raise returns `Option` (`none` = a raised exception).
-/

namespace Careq

/-! ## Python string primitives -/

/-- Python `str.lower`, modelled on the character sequence. -/
def pyLower (s : String) : String := ⟨s.data.map Char.toLower⟩

/-- Python `str.strip`: drop leading and trailing whitespace characters. -/
def pyStrip (s : String) : String :=
  ⟨((s.data.dropWhile Char.isWhitespace).reverse.dropWhile Char.isWhitespace).reverse⟩

/-- Python `str.startswith`, modelled on the character sequence. -/
def pyStartsWith (s pre : String) : Bool := pre.data.isPrefixOf s.data

/-! ## triage.py -/

/-- The `"critical"` tier of `SYMPTOM_SEVERITY` in `backend/triage.py`. -/
def criticalSymptoms : List (String × Int) :=
  [("shortness of breath", 8), ("chest pain", 7), ("severe pain", 7),
   ("difficulty breathing", 8), ("unconsciousness", 10), ("sudden weakness", 7)]

/-- The `"urgent"` tier of `SYMPTOM_SEVERITY`. -/
def urgentSymptoms : List (String × Int) :=
  [("fever", 4), ("persistent cough", 3), ("abdominal pain", 5),
   ("headache with fever", 5), ("vomiting", 3), ("diarrhea", 3), ("dizziness", 4)]

/-- The `"stable"` tier of `SYMPTOM_SEVERITY`. -/
def stableSymptoms : List (String × Int) :=
  [("headache", 2), ("nausea", 2), ("mild pain", 2), ("sore throat", 1), ("runny nose", 1)]

/-- `SYMPTOM_SEVERITY` flattened in iteration order (the nested loop in
`get_triage_score` visits every `(symptom, weight)` pair of every tier). -/
def SYMPTOM_SEVERITY : List (String × Int) :=
  criticalSymptoms ++ urgentSymptoms ++ stableSymptoms

/-- The `s.lower().strip()` normalisation applied to each input symptom. -/
def normalizeSymptom (s : String) : String := pyStrip (pyLower s)

/-- `get_triage_score(symptoms, age)` from `backend/triage.py`. -/
def get_triage_score (symptoms : List String) (age : Int) : Int :=
  let normalized_symptoms := symptoms.map normalizeSymptom
  let ageScore : Int :=
    if age < 1 then 5 else if age < 18 then 2 else if age ≥ 65 then 4 else 0
  let symptomScore : Int :=
    (SYMPTOM_SEVERITY.map (fun kv => if kv.1 ∈ normalized_symptoms then kv.2 else 0)).sum
  let combo1 : Int :=
    if "chest pain" ∈ normalized_symptoms ∧ "shortness of breath" ∈ normalized_symptoms
    then 5 else 0
  let combo2 : Int :=
    if "fever" ∈ normalized_symptoms ∧ "headache" ∈ normalized_symptoms then 2 else 0
  let combo3 : Int :=
    if "severe pain" ∈ normalized_symptoms ∧ (age < 5 ∨ age > 75) then 3 else 0
  max 0 (ageScore + symptomScore + combo1 + combo2 + combo3)

/-- `get_severity_level(score)` from `backend/triage.py`. -/
def get_severity_level (score : Int) : String :=
  if score ≥ 7 then "Critical" else if score ≥ 4 then "Urgent" else "Stable"

/-! ## ai_predictor.py -/

/-- The feature bundle built by `AIWaitingTimePredictor._extract_features`. -/
structure Features where
  queue_length : Nat
  high_priority_in_queue : Nat
  severity_level : String
  symptom_complexity : String
  symptom_count : Nat
  age : Int
  time_of_day : String
  day_of_week : String
  hour : Nat
deriving DecidableEq

/-- One element of the `current_queue` list handed to the predictor
(the dicts built in `backend/app.py`). -/
structure QueueEntry where
  id : Nat
  severity_level : String
  called : Bool
  eta : Int
deriving DecidableEq

/-- The `patient_data` dict handed to `predict_waiting_time`. -/
structure PatientData where
  severity_level : String
  symptoms : List String
  age : Int
deriving DecidableEq

/-- One record of `self.historical_data` as appended by `update_model`. -/
structure FeedbackRecord where
  actual_wait_time : Nat
  predicted_wait_time : Nat
  features : Features
  timestamp : Int
  accuracy : ℚ
deriving DecidableEq

/-- The result dict of `predict_waiting_time` / `_fallback_prediction`
(the `factors_considered` and `timestamp` fields, not touched by any
claim, are omitted). -/
structure Prediction where
  predicted_wait_time : Int
  confidence_score : ℚ
  insights : List String
deriving DecidableEq

/-- `model_weights['severity_multiplier']`. -/
def severity_multiplier : List (String × ℚ) :=
  [("Critical", 1/10), ("Urgent", 3/10), ("Medium", 3/5), ("Low", 1)]

/-- `model_weights['queue_length_factor']`. -/
def queue_length_factor : ℚ := 4/5

/-- `model_weights['time_of_day_factor']`. -/
def time_of_day_factor : List (String × ℚ) :=
  [("morning", 6/5), ("afternoon", 1), ("evening", 4/5), ("night", 3/5)]

/-- `model_weights['day_of_week_factor']`. -/
def day_of_week_factor : List (String × ℚ) :=
  [("Monday", 13/10), ("Tuesday", 6/5), ("Wednesday", 11/10), ("Thursday", 1),
   ("Friday", 9/10), ("Saturday", 7/10), ("Sunday", 3/5)]

/-- `model_weights['symptom_complexity']`. -/
def symptom_complexity_weights : List (String × ℚ) :=
  [("simple", 4/5), ("moderate", 1), ("complex", 13/10)]

/-- Python `dict.get(key, default)` over an association list. -/
def lookupOr (tbl : List (String × ℚ)) (k : String) (d : ℚ) : ℚ :=
  (List.lookup k tbl).getD d

/-- `_extract_features`; the wall clock is the explicit `(hour, day_of_week)`
pair read from `datetime.now()`. -/
def _extract_features (patient_data : PatientData) (current_queue : List QueueEntry)
    (hour : Nat) (day_of_week : String) : Features :=
  let queue_length := (current_queue.filter (fun p => !p.called)).length
  let high_priority_in_queue :=
    (current_queue.filter (fun p =>
      !p.called && (p.severity_level == "Critical" || p.severity_level == "Urgent"))).length
  let time_period :=
    if 6 ≤ hour ∧ hour < 12 then "morning"
    else if 12 ≤ hour ∧ hour < 18 then "afternoon"
    else if 18 ≤ hour ∧ hour < 24 then "evening"
    else "night"
  let symptom_count := patient_data.symptoms.length
  let complexity :=
    if symptom_count = 1 then "simple"
    else if symptom_count ≤ 3 then "moderate"
    else "complex"
  { queue_length := queue_length
    high_priority_in_queue := high_priority_in_queue
    severity_level := patient_data.severity_level
    symptom_complexity := complexity
    symptom_count := symptom_count
    age := patient_data.age
    time_of_day := time_period
    day_of_week := day_of_week
    hour := hour }

/-- `_calculate_base_waiting_time`. -/
def _calculate_base_waiting_time (f : Features) : ℚ :=
  let base_time : ℚ := 15
  let severity_mult := lookupOr severity_multiplier f.severity_level (3/5)
  let queue_factor := 1 + (f.queue_length : ℚ) * queue_length_factor
  let time_factor := lookupOr time_of_day_factor f.time_of_day 1
  let day_factor := lookupOr day_of_week_factor f.day_of_week 1
  let complexity_factor := lookupOr symptom_complexity_weights f.symptom_complexity 1
  base_time * severity_mult * queue_factor * time_factor * day_factor * complexity_factor

/-- Python `l[-n:]`: the at most `n` most recent entries of a list. -/
def lastN (n : Nat) (l : List α) : List α := l.drop (l.length - n)

/-- `_calculate_recent_accuracy`. -/
def _calculate_recent_accuracy (historical_data : List FeedbackRecord) : ℚ :=
  if historical_data.length < 5 then 4/5
  else
    let recent_data := lastN 10 historical_data
    ((recent_data.map (fun r => r.accuracy)).sum) / (recent_data.length : ℚ)

/-- The feedback-driven first block of `_apply_ai_adjustments`
(lines 167–172 of `ai_predictor.py`). -/
def adaptiveAdjustment (historical_data : List FeedbackRecord) (base_time : ℚ) : ℚ :=
  if historical_data.length > 10 then
    let recent_accuracy := _calculate_recent_accuracy historical_data
    if recent_accuracy < 7/10 then base_time * (1 + (7/10 - recent_accuracy) * (1/5))
    else base_time
  else base_time

/-- `_apply_ai_adjustments`: the adaptive block followed by the three
dynamic condition blocks, in source order. -/
def _apply_ai_adjustments (historical_data : List FeedbackRecord) (base_time : ℚ)
    (f : Features) : ℚ :=
  let t1 := adaptiveAdjustment historical_data base_time
  let t2 := if f.high_priority_in_queue > 3 then t1 * (6/5) else t1
  let t3 := if f.time_of_day = "morning" ∧ f.queue_length > 5 then t2 * (13/10) else t2
  if f.age < 18 ∨ f.age > 65 then t3 * (9/10) else t3

/-- `_calculate_confidence`. -/
def _calculate_confidence (historical_data : List FeedbackRecord) (f : Features) : ℚ :=
  let c1 : ℚ := 4/5
  let c2 := if historical_data.length > 50 then c1 + 1/10 else c1
  let c3 := if f.queue_length > 10 then c2 - 1/10 else c2
  let c4 := if f.severity_level = "Critical" ∧ f.queue_length > 5 then c3 - 1/5 else c3
  max (1/10) (min 1 c4)

/-- `_generate_insights` (its `predicted_time` argument is unused in the
source as well). -/
def _generate_insights (f : Features) (_predicted_time : ℚ) : List String :=
  (if f.severity_level = "Critical" then ["Critical priority - you will be seen very soon"]
   else if f.severity_level = "Urgent" then ["Urgent priority - shorter wait time expected"]
   else []) ++
  (if f.queue_length = 0 then ["No patients ahead - immediate attention"]
   else if f.queue_length ≤ 3 then ["Short queue - quick service expected"]
   else if f.queue_length ≤ 7 then ["Moderate queue - reasonable wait time"]
   else ["Longer queue - please be patient"]) ++
  (if f.time_of_day = "morning" then ["Morning rush hour - busier than usual"]
   else if f.time_of_day = "evening" then ["Evening hours - typically less busy"]
   else []) ++
  (if f.symptom_complexity = "complex" then ["Complex symptoms may require longer consultation"]
   else [])

/-- `_fallback_prediction`. -/
def _fallback_prediction (patient_data : PatientData) (current_queue : List QueueEntry) :
    Prediction :=
  let queue_length : Int := (current_queue.filter (fun p => !p.called)).length
  let severity := patient_data.severity_level
  let wait_time : Int :=
    if severity = "Critical" then 5
    else if severity = "Urgent" then 10 + queue_length * 2
    else if severity = "Medium" then 20 + queue_length * 3
    else 30 + queue_length * 4
  { predicted_wait_time := max 1 wait_time
    confidence_score := 1/2
    insights := ["Using fallback prediction - AI temporarily unavailable"] }

/-- Python `int(x)`: truncation towards zero.  Both divisions below act on
non-negative operands, where every Lean integer division agrees with
truncation. -/
def pyInt (x : ℚ) : Int :=
  if 0 ≤ x.num then x.num / (x.den : Int) else -((-x.num) / (x.den : Int))

/-- `predict_waiting_time`.  The `try`/`except` block is modelled by the
`raisesInternally` flag: `true` means some exception was raised inside the
`try` body (Python can raise there on dynamically ill-typed input), in
which case the source answers with `_fallback_prediction`. -/
def predict_waiting_time (raisesInternally : Bool) (patient_data : PatientData)
    (current_queue : List QueueEntry) (historical_data : List FeedbackRecord)
    (hour : Nat) (day_of_week : String) : Prediction :=
  if raisesInternally then _fallback_prediction patient_data current_queue
  else
    let features := _extract_features patient_data current_queue hour day_of_week
    let base_time := _calculate_base_waiting_time features
    let ai_adjusted_time := _apply_ai_adjustments historical_data base_time features
    let confidence := _calculate_confidence historical_data features
    let insights := _generate_insights features ai_adjusted_time
    { predicted_wait_time := max 1 (pyInt ai_adjusted_time)
      confidence_score := confidence
      insights := insights }

/-- The record literal appended by `update_model`.  Its `accuracy` field is
`1 - abs(actual - predicted) / max(actual, predicted)` — note the absent
`, 1` guard in the denominator. -/
def mkFeedbackRecord (actual_wait_time predicted_wait_time : Nat) (features : Features)
    (timestamp : Int) : FeedbackRecord :=
  { actual_wait_time := actual_wait_time
    predicted_wait_time := predicted_wait_time
    features := features
    timestamp := timestamp
    accuracy := 1 - |(actual_wait_time : ℚ) - (predicted_wait_time : ℚ)| /
      ((max actual_wait_time predicted_wait_time : Nat) : ℚ) }

/-- `update_model(actual_wait_time, predicted_wait_time, features)` acting
on `self.historical_data`.  When `max actual predicted = 0` the Python
source raises `ZeroDivisionError` while computing `accuracy`; that raise is
modelled as `none`. -/
def update_model (actual_wait_time predicted_wait_time : Nat) (features : Features)
    (timestamp : Int) (historical_data : List FeedbackRecord) :
    Option (List FeedbackRecord) :=
  if max actual_wait_time predicted_wait_time = 0 then none
  else
    let h := historical_data ++
      [mkFeedbackRecord actual_wait_time predicted_wait_time features timestamp]
    some (if h.length > 100 then lastN 100 h else h)

/-! ## db.py / app.py: patients, queue order, scheduler -/

/-- A row of the `patients` table (`backend/db.py`).  `symptoms` is stored
as `json.dumps` of the symptom list and read back with `json.loads`; the
round-tripped list itself stands for the stored string.  `queued_at` is an
integer timestamp in seconds. -/
structure DbPatient where
  id : Nat
  user_id : Int
  name : String
  age : Int
  symptoms : List String
  triage_score : Int
  severity_level : String
  eta : Int
  queued_at : Int
  called : Bool
  lang_code : String
deriving DecidableEq

/-- The SQL ordering `ORDER BY triage_score DESC, queued_at ASC` used by
both `get_patients` and `reschedule_queue_notifications`, as a total
preorder: `PatientLe p q` holds when `p` may come no later than `q`. -/
def PatientLe (p q : DbPatient) : Prop :=
  q.triage_score < p.triage_score ∨
    (p.triage_score = q.triage_score ∧ p.queued_at ≤ q.queued_at)

/-- The strict part of the queue order: `p` strictly precedes `q`. -/
def PatientLt (p q : DbPatient) : Prop :=
  q.triage_score < p.triage_score ∨
    (p.triage_score = q.triage_score ∧ p.queued_at < q.queued_at)

instance : DecidableRel PatientLe := fun p q => by
  unfold PatientLe; infer_instance

instance : DecidableRel PatientLt := fun p q => by
  unfold PatientLt; infer_instance

instance : IsTotal DbPatient PatientLe where
  total p q := by unfold PatientLe; omega

instance : IsTrans DbPatient PatientLe where
  trans p q r := by unfold PatientLe; omega

/-- `reorder`: producing the queue view ordered by
`(triage_score desc, queued_at asc)`, ties kept in arrival order
(a stable sort of the snapshot). -/
def reorder (snapshot : List DbPatient) : List DbPatient :=
  List.insertionSort PatientLe snapshot

/-- The uncalled patients in priority order, as queried at the top of
`reschedule_queue_notifications`. -/
def uncalledByPriority (db : List DbPatient) : List DbPatient :=
  reorder (db.filter (fun p => !p.called))

/-- A pending APScheduler job: its string id and its `run_date`
(`fireAt`), an integer timestamp in seconds. -/
structure Job where
  id : String
  fireAt : Int
deriving DecidableEq

/-- The notify-job id `f"notify_{patient.id}"`. -/
def notifyJobId (patientId : Nat) : String := "notify_" ++ toString patientId

/-- `scheduler.add_job(..., id=..., replace_existing=True)`: any pending
job under the same id is replaced. -/
def add_job (jobs : List Job) (j : Job) : List Job :=
  jobs.filter (fun j2 => j2.id != j.id) ++ [j]

/-- The cleanup loop of `reschedule_queue_notifications`: remove every job
whose id starts with `"notify_"`. -/
def removeNotifyJobs (jobs : List Job) : List Job :=
  jobs.filter (fun j => !pyStartsWith j.id "notify_")

/-- `notification_time`: `now + timedelta(minutes=patient.eta - 5)`,
clamped to `now + timedelta(seconds=30)` when it lies strictly before
`now`.  Times are in seconds. -/
def notificationTime (now : Int) (eta : Int) : Int :=
  let t := now + (eta - 5) * 60
  if t < now then now + 30 else t

/-- The job registered for one queue-front patient. -/
def mkNotifyJob (now : Int) (p : DbPatient) : Job :=
  { id := notifyJobId p.id, fireAt := notificationTime now p.eta }

/-- `reschedule_queue_notifications(db)` acting on the scheduler's job
set.  The three `datetime.now()` reads of the source are modelled as the
single instant `now`. -/
def reschedule_queue_notifications (now : Int) (db : List DbPatient)
    (jobs : List Job) : List Job :=
  let kept := removeNotifyJobs jobs
  let top := (uncalledByPriority db).take 3
  top.foldl (fun js p => add_job js (mkNotifyJob now p)) kept

/-- The request body of `POST /patients/` (`PatientCreate` in `app.py`). -/
structure PatientCreate where
  user_id : Int
  name : String
  age : Int
  symptoms : List String
  lang_code : String
deriving DecidableEq

/-- Update the first row matching `user_id`, as
`db.query(Patient).filter(Patient.user_id == ...).first()` followed by the
field assignments does. -/
def updateFirstByUserId (uid : Int) (upd : DbPatient → DbPatient) :
    List DbPatient → List DbPatient
  | [] => []
  | p :: rest =>
      if p.user_id = uid then upd p :: rest
      else p :: updateFirstByUserId uid upd rest

/-- `create_patient` (the queue mutation of `POST /patients/`): compute
triage score and severity, then either update the existing row with the
same `user_id` in place or append a fresh row.  `eta` is the
`predicted_wait_time` returned by `ai_predictor.predict_waiting_time`
(wall-clock dependent, so passed in), `newId` the database-assigned
primary key and `now` the `queued_at` column default for a fresh row. -/
def create_patient (db : List DbPatient) (patient : PatientCreate) (eta : Int)
    (newId : Nat) (now : Int) : List DbPatient :=
  let triage_score := get_triage_score patient.symptoms patient.age
  let severity_level := get_severity_level triage_score
  if db.any (fun p => p.user_id == patient.user_id) then
    updateFirstByUserId patient.user_id
      (fun p =>
        { p with
          name := patient.name
          age := patient.age
          symptoms := patient.symptoms
          triage_score := triage_score
          severity_level := severity_level
          eta := eta
          lang_code := patient.lang_code })
      db
  else
    db ++ [{ id := newId
             user_id := patient.user_id
             name := patient.name
             age := patient.age
             symptoms := patient.symptoms
             triage_score := triage_score
             severity_level := severity_level
             eta := eta
             queued_at := now
             called := false
             lang_code := patient.lang_code }]

/-! ## Spec-side definitions

The fallback formula as §4.2 of the spec words it: a per-level base plus a
per-entity-ahead increment.  These are compared with `_fallback_prediction`
(which is translated from the source) in the claim about failure
semantics. -/

/-- The fixed per-level base of the fallback formula, as the spec words it. -/
def specFallbackBase (severity : String) : Int :=
  if severity = "Critical" then 5
  else if severity = "Urgent" then 10
  else if severity = "Medium" then 20
  else 30

/-- The fixed per-entity-ahead increment of the fallback formula, as the
spec words it. -/
def specFallbackIncrement (severity : String) : Int :=
  if severity = "Critical" then 0
  else if severity = "Urgent" then 2
  else if severity = "Medium" then 3
  else 4

/-- The field rewrite `create_patient` performs on an existing row: new
name, age, symptoms, recomputed triage score and severity, new eta and
language; `id`, `user_id`, `queued_at` and `called` are not assigned. -/
def applyPatientUpdate (inp : PatientCreate) (eta : Int) (p : DbPatient) : DbPatient :=
  { p with
    name := inp.name
    age := inp.age
    symptoms := inp.symptoms
    triage_score := get_triage_score inp.symptoms inp.age
    severity_level := get_severity_level (get_triage_score inp.symptoms inp.age)
    eta := eta
    lang_code := inp.lang_code }

/-! ## Concrete data for witnesses and counterexamples -/

/-- A concrete feature bundle used by witnesses. -/
def sampleFeatures : Features :=
  { queue_length := 2
    high_priority_in_queue := 1
    severity_level := "Medium"
    symptom_complexity := "simple"
    symptom_count := 1
    age := 30
    time_of_day := "afternoon"
    day_of_week := "Thursday"
    hour := 13 }

/-- A high-priority patient queued early. -/
def patHighEarly : DbPatient :=
  { id := 1, user_id := 101, name := "A", age := 40, symptoms := ["chest pain"]
    triage_score := 7, severity_level := "Critical", eta := 100, queued_at := 10
    called := false, lang_code := "en" }

/-- A lower-priority patient queued later. -/
def patLowLate : DbPatient :=
  { id := 2, user_id := 102, name := "B", age := 30, symptoms := ["headache"]
    triage_score := 2, severity_level := "Stable", eta := 40, queued_at := 20
    called := false, lang_code := "en" }

/-- Same score as `patLowLate`, queued even later. -/
def patLowLater : DbPatient :=
  { id := 3, user_id := 103, name := "C", age := 30, symptoms := ["nausea"]
    triage_score := 2, severity_level := "Stable", eta := 60, queued_at := 30
    called := false, lang_code := "en" }

/-- A patient whose eta equals the 5-minute lead, making the computed
`fireAt` coincide with `now`. -/
def patBoundary : DbPatient :=
  { id := 9, user_id := 109, name := "D", age := 50, symptoms := ["fever"]
    triage_score := 4, severity_level := "Urgent", eta := 5, queued_at := 5
    called := false, lang_code := "en" }

/-! ## Shared helper lemmas -/

lemma mem_cons_iff_ne {a b : String} {l : List String} (h : a ≠ b) :
    (a ∈ b :: l) ↔ a ∈ l := by
  simp [List.mem_cons, h]

/-- A symptom whose normalisation matches no table key contributes nothing
to the weighted sum, for any symptom table. -/
lemma tableSum_unknown_cons {nu : String} (ns : List String)
    (tbl : List (String × Int)) (hu : nu ∉ tbl.map Prod.fst) :
    (tbl.map (fun kv => if kv.1 ∈ nu :: ns then kv.2 else 0)).sum
      = (tbl.map (fun kv => if kv.1 ∈ ns then kv.2 else 0)).sum := by
  induction tbl with
  | nil => rfl
  | cons kv t ih =>
      simp only [List.map_cons, List.mem_cons, not_or] at hu
      have hne : ¬ kv.1 = nu := fun h => hu.1 h.symm
      simp only [List.map_cons, List.sum_cons, ih hu.2]
      congr 1
      exact if_congr (List.mem_cons.trans (or_iff_right hne)) rfl rfl

/-! ## C8 — the chest pain / shortness of breath combination -/

/-- C8: for symptoms `["chest pain", "shortness of breath"]` at age 45 the
triage score is the two individual weights (7 and 8) plus the combination
bonus (5) with no age contribution, and that score maps to the `Critical`
level (threshold `score ≥ 7`). -/
theorem triage_combo_chest_pain_breath :
    get_triage_score ["chest pain", "shortness of breath"] 45 = 7 + 8 + 5
    ∧ get_severity_level (get_triage_score ["chest pain", "shortness of breath"] 45)
        = "Critical"
    ∧ 7 ≤ get_triage_score ["chest pain", "shortness of breath"] 45 := by
  refine ⟨by decide, by decide, by decide⟩

/-- C6: the scorer is total and permissive: the score is never negative, a
negative age scores exactly as age 0 does, and a symptom whose
case-insensitive whitespace-trimmed normalisation is not a table key
changes nothing. -/
theorem triage_total_and_permissive :
  ∀ (symptoms : List String) (age : Int) (u : String),
    0 ≤ get_triage_score symptoms age
    ∧ (age < 0 → get_triage_score symptoms age = get_triage_score symptoms 0)
    ∧ (normalizeSymptom u ∉ SYMPTOM_SEVERITY.map Prod.fst →
        get_triage_score (u :: symptoms) age = get_triage_score symptoms age) := by
  intro symptoms age u
  refine ⟨?_, ?_, ?_⟩
  · simp only [get_triage_score]
    exact le_max_left _ _
  · intro hage
    simp only [get_triage_score]
    have e1 : (if age < 1 then (5:Int) else if age < 18 then 2
        else if age ≥ 65 then 4 else 0) = 5 := if_pos (by omega)
    have e2 : (if (0:Int) < 1 then (5:Int) else if (0:Int) < 18 then 2
        else if (0:Int) ≥ 65 then 4 else 0) = 5 := by norm_num
    have e3 : ("severe pain" ∈ symptoms.map normalizeSymptom ∧ (age < 5 ∨ age > 75))
        ↔ ("severe pain" ∈ symptoms.map normalizeSymptom ∧ ((0:Int) < 5 ∨ (0:Int) > 75)) := by
      constructor <;> (rintro ⟨hm, h2⟩; exact ⟨hm, by omega⟩)
    rw [e1, e2, if_congr e3 rfl rfl]
  · intro hu
    simp only [get_triage_score, List.map_cons]
    have hc : ∀ k : String, k ∈ SYMPTOM_SEVERITY.map Prod.fst →
        ((k ∈ normalizeSymptom u :: symptoms.map normalizeSymptom)
          ↔ k ∈ symptoms.map normalizeSymptom) := by
      intro k hk
      exact mem_cons_iff_ne (fun h => hu (h ▸ hk))
    rw [tableSum_unknown_cons _ _ hu,
      if_congr (and_congr (hc _ (by decide)) (hc _ (by decide))) rfl rfl,
      if_congr (and_congr (hc _ (by decide)) (hc _ (by decide))) rfl rfl,
      if_congr (and_congr (hc _ (by decide)) Iff.rfl) rfl rfl]

/-- C6 witness: the theorem instantiated at symptoms `["fever"]`, age `-3`
and the unknown symptom `"xyz"`. -/
theorem triage_total_and_permissive_witness :
    (0:Int) ≤ get_triage_score ["fever"] (-3)
    ∧ get_triage_score ["fever"] (-3) = get_triage_score ["fever"] 0
    ∧ get_triage_score ["xyz", "fever"] (-3) = get_triage_score ["fever"] (-3) :=
  ⟨(triage_total_and_permissive ["fever"] (-3) "xyz").1,
   (triage_total_and_permissive ["fever"] (-3) "xyz").2.1 (by norm_num),
   (triage_total_and_permissive ["fever"] (-3) "xyz").2.2 (by decide)⟩

/-- C9: a severity level that is not a key of the multiplier table — in
particular `"Stable"`, the only below-Urgent level the triage scorer
actually produces — receives the default multiplier `0.6`, the value of
`"Medium"`, so the base waiting time is the same for otherwise identical
features. -/
theorem stable_gets_default_multiplier :
  ∀ (s : String) (f : Features),
    (s ∉ ["Critical", "Urgent", "Medium", "Low"] →
      lookupOr severity_multiplier s (3/5) = 3/5)
    ∧ lookupOr severity_multiplier "Stable" (3/5) = 3/5
    ∧ lookupOr severity_multiplier "Medium" (3/5) = 3/5
    ∧ _calculate_base_waiting_time { f with severity_level := "Stable" }
        = _calculate_base_waiting_time { f with severity_level := "Medium" }
    ∧ (∀ score : Int, get_severity_level score = "Critical"
        ∨ get_severity_level score = "Urgent" ∨ get_severity_level score = "Stable") := by
  intro s f
  refine ⟨?_, rfl, rfl, rfl, ?_⟩
  · intro h
    simp only [List.mem_cons, List.not_mem_nil, or_false, not_or] at h
    obtain ⟨h1, h2, h3, h4⟩ := h
    have b1 : (s == "Critical") = false := beq_eq_false_iff_ne.mpr h1
    have b2 : (s == "Urgent") = false := beq_eq_false_iff_ne.mpr h2
    have b3 : (s == "Medium") = false := beq_eq_false_iff_ne.mpr h3
    have b4 : (s == "Low") = false := beq_eq_false_iff_ne.mpr h4
    simp [lookupOr, severity_multiplier, List.lookup, b1, b2, b3, b4]
  · intro score
    unfold get_severity_level
    split_ifs <;> simp

/-- C9 witness: the theorem instantiated at the non-key level `"Stable"`
and a concrete feature bundle. -/
theorem stable_gets_default_multiplier_witness :
    lookupOr severity_multiplier "Stable" (3/5) = 3/5
    ∧ _calculate_base_waiting_time { sampleFeatures with severity_level := "Stable" }
        = _calculate_base_waiting_time { sampleFeatures with severity_level := "Medium" } :=
  ⟨(stable_gets_default_multiplier "Stable" sampleFeatures).1 (by decide),
   (stable_gets_default_multiplier "Stable" sampleFeatures).2.2.2.1⟩

/-- C2: whenever the prediction body raises, `predict_waiting_time` answers
with `_fallback_prediction` instead of propagating; the fallback is a total
function whose result has confidence exactly `0.5`, a single explanatory
insight, and a wait time that is the severity-level base plus the
per-entity increment times the non-served queue length (floored at 1
minute). -/
theorem predictor_error_returns_fallback :
  ∀ (pd : PatientData) (q : List QueueEntry) (hist : List FeedbackRecord)
    (hour : Nat) (day : String),
    predict_waiting_time true pd q hist hour day = _fallback_prediction pd q
    ∧ (_fallback_prediction pd q).confidence_score = 1/2
    ∧ (_fallback_prediction pd q).insights
        = ["Using fallback prediction - AI temporarily unavailable"]
    ∧ (_fallback_prediction pd q).predicted_wait_time
        = max 1 (specFallbackBase pd.severity_level
            + specFallbackIncrement pd.severity_level
              * ((q.filter (fun p => !p.called)).length : Int)) := by
  intro pd q hist hour day
  refine ⟨rfl, rfl, rfl, ?_⟩
  have hv : (_fallback_prediction pd q).predicted_wait_time
      = max 1
          (if pd.severity_level = "Critical" then (5:Int)
           else if pd.severity_level = "Urgent" then
             10 + ((q.filter (fun p => !p.called)).length : Int) * 2
           else if pd.severity_level = "Medium" then
             20 + ((q.filter (fun p => !p.called)).length : Int) * 3
           else 30 + ((q.filter (fun p => !p.called)).length : Int) * 4) := rfl
  rw [hv]
  simp only [specFallbackBase, specFallbackIncrement]
  split_ifs <;> (congr 1; ring)

/-- C7: the adaptive adjustment fires only with more than 10 feedback
records; it averages the accuracy of exactly the 10 most recent records,
scales the base time by `1 + (0.7 - mean) * 0.2` only when the mean is
below `0.7`, leaves it unchanged otherwise, and never depends on any
record older than the most recent 10. -/
theorem adaptive_adjustment_recent_ten_only :
  ∀ (base : ℚ) (h h2 : List FeedbackRecord),
    (h.length ≤ 10 → adaptiveAdjustment h base = base)
    ∧ (10 < h.length →
        (lastN 10 h).length = 10
        ∧ _calculate_recent_accuracy h
            = ((lastN 10 h).map (fun r => r.accuracy)).sum / 10
        ∧ adaptiveAdjustment h base
            = (if _calculate_recent_accuracy h < 7/10
               then base * (1 + (7/10 - _calculate_recent_accuracy h) * (1/5))
               else base))
    ∧ (10 < h.length → 10 < h2.length → lastN 10 h = lastN 10 h2 →
        adaptiveAdjustment h base = adaptiveAdjustment h2 base) := by
  intro base h h2
  have hlen : ∀ l : List FeedbackRecord, 10 < l.length → (lastN 10 l).length = 10 := by
    intro l hl
    simp only [lastN, List.length_drop]
    omega
  have hacc : ∀ l : List FeedbackRecord, 10 < l.length →
      _calculate_recent_accuracy l = ((lastN 10 l).map (fun r => r.accuracy)).sum / 10 := by
    intro l hl
    have h5 : ¬ l.length < 5 := by omega
    simp only [_calculate_recent_accuracy, if_neg h5, hlen l hl]
    norm_num
  refine ⟨?_, ?_, ?_⟩
  · intro hle
    simp only [adaptiveAdjustment]
    rw [if_neg (by omega)]
  · intro hgt
    exact ⟨hlen h hgt, hacc h hgt, by simp only [adaptiveAdjustment, if_pos hgt]⟩
  · intro hgt hgt2 heq
    have : _calculate_recent_accuracy h = _calculate_recent_accuracy h2 := by
      rw [hacc h hgt, hacc h2 hgt2, heq]
    simp only [adaptiveAdjustment, if_pos hgt, if_pos hgt2, this]

/-- C7 witness: histories of 11 and 12 copies of an accuracy-1/2 record
share their most recent 10 records and get the same scaled result, while a
3-record history is left untouched. -/
theorem adaptive_adjustment_recent_ten_only_witness :
    adaptiveAdjustment (List.replicate 11 (mkFeedbackRecord 10 5 sampleFeatures 0)) 10
      = adaptiveAdjustment (List.replicate 12 (mkFeedbackRecord 10 5 sampleFeatures 0)) 10
    ∧ adaptiveAdjustment (List.replicate 3 (mkFeedbackRecord 10 5 sampleFeatures 0)) 10
      = 10 :=
  ⟨(adaptive_adjustment_recent_ten_only 10
      (List.replicate 11 (mkFeedbackRecord 10 5 sampleFeatures 0))
      (List.replicate 12 (mkFeedbackRecord 10 5 sampleFeatures 0))).2.2
      (by simp) (by simp) (by simp [lastN, List.drop_replicate]),
   (adaptive_adjustment_recent_ten_only 10
      (List.replicate 3 (mkFeedbackRecord 10 5 sampleFeatures 0))
      (List.replicate 3 (mkFeedbackRecord 10 5 sampleFeatures 0))).1 (by simp)⟩

/-- C1 theorem (the code side): `update_model` raises on the all-zero
input; on every other pair of non-negative integers it appends exactly one
record whose accuracy matches the specified
`1 - abs(actual - predicted) / max(actual, predicted, 1)` formula, and the
store keeps exactly the `min (n+1) 100` most recent records, evicting the
oldest first. -/
theorem update_model_eval_and_bound :
  ∀ (a p : Nat) (f : Features) (ts : Int) (h : List FeedbackRecord),
    update_model 0 0 f ts h = none
    ∧ (0 < max a p →
        update_model a p f ts h
          = some (lastN 100 (h ++ [mkFeedbackRecord a p f ts])))
    ∧ (0 < max a p →
        (mkFeedbackRecord a p f ts).accuracy
          = 1 - |(a : ℚ) - (p : ℚ)| / ((max (max a p) 1 : Nat) : ℚ))
    ∧ (lastN 100 (h ++ [mkFeedbackRecord a p f ts])).length = min (h.length + 1) 100
    ∧ (h.length = 100 →
        lastN 100 (h ++ [mkFeedbackRecord a p f ts])
          = h.drop 1 ++ [mkFeedbackRecord a p f ts]) := by
  intro a p f ts h
  refine ⟨rfl, ?_, ?_, ?_, ?_⟩
  · intro hpos
    simp only [update_model, if_neg (by omega : ¬ max a p = 0)]
    by_cases hlen : (h ++ [mkFeedbackRecord a p f ts]).length > 100
    · rw [if_pos hlen]
    · rw [if_neg hlen]
      simp only [lastN]
      rw [show (h ++ [mkFeedbackRecord a p f ts]).length - 100 = 0 by
        simp only [List.length_append, List.length_singleton] at hlen ⊢; omega]
      rw [List.drop_zero]
  · intro hpos
    have : max (max a p) 1 = max a p := by omega
    rw [this]
    rfl
  · simp only [lastN, List.length_drop, List.length_append, List.length_singleton]
    omega
  · intro h100
    simp only [lastN, List.length_append, List.length_singleton, h100]
    rw [show (100 + 1 - 100 : Nat) = 1 from rfl,
      List.drop_append_of_le_length (by omega)]

/-- C1 witness-style evaluation: a concrete non-zero pair appends its
record, and the all-zero pair raises. -/
theorem update_model_eval_and_bound_witness :
    update_model 3 5 sampleFeatures 0 [] = some [mkFeedbackRecord 3 5 sampleFeatures 0]
    ∧ update_model 0 0 sampleFeatures 0 [] = none :=
  ⟨((update_model_eval_and_bound 3 5 sampleFeatures 0 []).2.1 (by norm_num)).trans
      (by norm_num [lastN]),
   (update_model_eval_and_bound 3 5 sampleFeatures 0 []).1⟩

/-- C5: the queue order `(triage_score desc, queued_at asc)` is a strict
weak ordering — irreflexive, transitive, with transitive incomparability —
whose ties are exactly the pairs equal in both score and arrival time, the
non-strict order used by the sort is its complement-converse, and
re-running `reorder` on an unchanged snapshot returns the identical
list. -/
theorem queue_order_swo_and_reorder_idempotent :
  ∀ (p q r : DbPatient) (l : List DbPatient),
    ¬ PatientLt p p
    ∧ (PatientLt p q → PatientLt q r → PatientLt p r)
    ∧ ((¬ PatientLt p q ∧ ¬ PatientLt q p)
        ↔ (p.triage_score = q.triage_score ∧ p.queued_at = q.queued_at))
    ∧ ((¬ PatientLt p q ∧ ¬ PatientLt q p) → (¬ PatientLt q r ∧ ¬ PatientLt r q) →
        (¬ PatientLt p r ∧ ¬ PatientLt r p))
    ∧ (PatientLe p q ↔ ¬ PatientLt q p)
    ∧ reorder (reorder l) = reorder l := by
  intro p q r l
  refine ⟨?_, ?_, ?_, ?_, ?_, ?_⟩
  · unfold PatientLt; omega
  · unfold PatientLt; omega
  · unfold PatientLt; omega
  · unfold PatientLt; omega
  · unfold PatientLe PatientLt; omega
  · exact (List.sorted_insertionSort PatientLe l).insertionSort_eq

/-- C5 witness: transitivity and the tie characterisation discharged on
concrete patients, and idempotence of `reorder` on a concrete snapshot. -/
theorem queue_order_swo_witness :
    PatientLt patHighEarly patLowLater
    ∧ reorder (reorder [patLowLate, patHighEarly, patLowLater])
        = reorder [patLowLate, patHighEarly, patLowLater] :=
  ⟨(queue_order_swo_and_reorder_idempotent patHighEarly patLowLate patLowLater []).2.1
      (by decide) (by decide),
   (queue_order_swo_and_reorder_idempotent patHighEarly patLowLate patLowLater
      [patLowLate, patHighEarly, patLowLater]).2.2.2.2.2⟩

/-! ## Scheduler helper lemmas -/

lemma pyStartsWith_append (s t : String) : pyStartsWith (s ++ t) s = true := by
  simp [pyStartsWith, String.data_append, List.isPrefixOf_iff_prefix]

lemma notifyJobId_starts (n : Nat) : pyStartsWith (notifyJobId n) "notify_" = true :=
  pyStartsWith_append "notify_" (toString n)

lemma mkNotifyJob_starts (now : Int) (p : DbPatient) :
    pyStartsWith (mkNotifyJob now p).id "notify_" = true :=
  notifyJobId_starts p.id

lemma ne_id_of_startsWith {a b : String} {pre : String}
    (ha : pyStartsWith a pre = true) (hb : pyStartsWith b pre = false) : a ≠ b := by
  intro h
  subst h
  rw [ha] at hb
  cases hb

lemma removeNotify_add_job (kept : List Job) (t : Job)
    (ht : pyStartsWith t.id "notify_" = true) :
    removeNotifyJobs (add_job kept t) = removeNotifyJobs kept := by
  unfold removeNotifyJobs add_job
  rw [List.filter_append, List.filter_filter]
  have h1 : List.filter (fun j => !pyStartsWith j.id "notify_") [t] = [] := by
    simp [ht]
  rw [h1, List.append_nil]
  apply List.filter_congr
  intro j _
  by_cases hs : pyStartsWith j.id "notify_"
  · simp [hs]
  · have hsf : pyStartsWith j.id "notify_" = false := by
      cases hpv : pyStartsWith j.id "notify_"
      · rfl
      · exact absurd hpv hs
    have hne : j.id ≠ t.id := fun he => by rw [he, ht] at hsf; cases hsf
    simp [hsf, bne_iff_ne, hne]

lemma removeNotify_foldl (tops kept : List Job)
    (h : ∀ t ∈ tops, pyStartsWith t.id "notify_" = true) :
    removeNotifyJobs (tops.foldl add_job kept) = removeNotifyJobs kept := by
  induction tops generalizing kept with
  | nil => rfl
  | cons t ts ih =>
      rw [List.foldl_cons, ih _ (fun x hx => h x (List.mem_cons_of_mem _ hx)),
        removeNotify_add_job kept t (h t (List.mem_cons_self _ _))]

lemma removeNotify_idem (jobs : List Job) :
    removeNotifyJobs (removeNotifyJobs jobs) = removeNotifyJobs jobs := by
  unfold removeNotifyJobs
  rw [List.filter_filter]
  exact List.filter_congr fun a _ => Bool.and_self _

lemma mem_foldl_add_job {j : Job} (tops kept : List Job)
    (hj : j ∈ tops.foldl add_job kept) : j ∈ kept ∨ j ∈ tops := by
  induction tops generalizing kept with
  | nil => exact Or.inl hj
  | cons t ts ih =>
      rw [List.foldl_cons] at hj
      rcases ih _ hj with h1 | h1
      · unfold add_job at h1
        rcases List.mem_append.mp h1 with h2 | h2
        · exact Or.inl (List.mem_of_mem_filter h2)
        · rw [List.mem_singleton] at h2
          subst h2
          exact Or.inr (List.mem_cons_self _ _)
      · exact Or.inr (List.mem_cons_of_mem _ h1)

lemma foldl_add_job_eq_append (tops kept : List Job)
    (hdisj : ∀ j ∈ kept, ∀ t ∈ tops, j.id ≠ t.id)
    (hnd : (tops.map Job.id).Nodup) :
    tops.foldl add_job kept = kept ++ tops := by
  induction tops generalizing kept with
  | nil => simp
  | cons t ts ih =>
      rw [List.foldl_cons]
      have hadd : add_job kept t = kept ++ [t] := by
        unfold add_job
        congr 1
        apply List.filter_eq_self.mpr
        intro j hj
        simpa [bne_iff_ne] using hdisj j hj t (List.mem_cons_self _ _)
      rw [hadd, ih (kept ++ [t]) ?_ ?_]
      · simp
      · intro j hj u hu
        rcases List.mem_append.mp hj with h1 | h1
        · exact hdisj j h1 u (List.mem_cons_of_mem _ hu)
        · rw [List.mem_singleton] at h1
          subst h1
          simp only [List.map_cons, List.nodup_cons, List.mem_map] at hnd
          exact fun he => hnd.1 ⟨u, hu, he.symm⟩
      · simp only [List.map_cons, List.nodup_cons] at hnd
        exact hnd.2

lemma top3_jobs_ids_nodup (now : Int) (db : List DbPatient)
    (hnd : ((db.filter (fun p => !p.called)).map (fun p => notifyJobId p.id)).Nodup) :
    ((((uncalledByPriority db).take 3).map (mkNotifyJob now)).map Job.id).Nodup := by
  rw [List.map_map]
  have hperm : List.Perm (uncalledByPriority db) (db.filter (fun p => !p.called)) :=
    List.perm_insertionSort PatientLe _
  have hsorted : ((uncalledByPriority db).map (fun p => notifyJobId p.id)).Nodup :=
    ((hperm.map (fun p => notifyJobId p.id)).nodup_iff).mpr hnd
  have hsub : List.Sublist
      (((uncalledByPriority db).take 3).map (fun p => notifyJobId p.id))
      ((uncalledByPriority db).map (fun p => notifyJobId p.id)) := by
    rw [List.map_take]
    exact List.take_sublist _ _
  exact List.Nodup.sublist hsub hsorted

lemma reschedule_eq_append (now : Int) (db : List DbPatient) (jobs : List Job)
    (hnd : ((db.filter (fun p => !p.called)).map (fun p => notifyJobId p.id)).Nodup) :
    reschedule_queue_notifications now db jobs
      = removeNotifyJobs jobs ++ ((uncalledByPriority db).take 3).map (mkNotifyJob now) := by
  unfold reschedule_queue_notifications
  rw [show ((uncalledByPriority db).take 3).foldl
        (fun js p => add_job js (mkNotifyJob now p)) (removeNotifyJobs jobs)
      = (((uncalledByPriority db).take 3).map (mkNotifyJob now)).foldl add_job
          (removeNotifyJobs jobs) from (List.foldl_map _ _ _ _).symm]
  apply foldl_add_job_eq_append
  · intro j hj t ht
    rcases List.mem_map.mp ht with ⟨p, _, hp⟩
    have hjf : pyStartsWith j.id "notify_" = false := by
      have := (List.mem_filter.mp hj).2
      simpa using this
    exact fun he => (ne_id_of_startsWith (hp ▸ mkNotifyJob_starts now p) hjf) he.symm
  · exact top3_jobs_ids_nodup now db hnd

/-- C3 (amended): at one instant, `reschedule_queue_notifications` is
idempotent — a second run with the same clock reading and an unchanged
snapshot reproduces the job set exactly; its notify jobs are precisely one
job per entity for the first three non-served entities in priority order,
and job ids stay duplicate-free. -/
theorem resync_same_instant_idempotent :
  ∀ (now : Int) (db : List DbPatient) (jobs : List Job),
    reschedule_queue_notifications now db (reschedule_queue_notifications now db jobs)
      = reschedule_queue_notifications now db jobs
    ∧ (((db.filter (fun p => !p.called)).map (fun p => notifyJobId p.id)).Nodup →
        (reschedule_queue_notifications now db jobs).filter
            (fun j => pyStartsWith j.id "notify_")
          = ((uncalledByPriority db).take 3).map (mkNotifyJob now))
    ∧ ((jobs.map Job.id).Nodup →
        ((db.filter (fun p => !p.called)).map (fun p => notifyJobId p.id)).Nodup →
        ((reschedule_queue_notifications now db jobs).map Job.id).Nodup) := by
  intro now db jobs
  have hstarts : ∀ t ∈ ((uncalledByPriority db).take 3).map (mkNotifyJob now),
      pyStartsWith t.id "notify_" = true := by
    intro t ht
    rcases List.mem_map.mp ht with ⟨p, _, hp⟩
    exact hp ▸ mkNotifyJob_starts now p
  refine ⟨?_, ?_, ?_⟩
  · conv =>
      lhs
      rw [reschedule_queue_notifications]
    rw [show ∀ kept, ((uncalledByPriority db).take 3).foldl
          (fun js p => add_job js (mkNotifyJob now p)) kept
        = (((uncalledByPriority db).take 3).map (mkNotifyJob now)).foldl add_job kept
        from fun kept => (List.foldl_map _ _ _ _).symm]
    rw [show reschedule_queue_notifications now db jobs
        = (((uncalledByPriority db).take 3).map (mkNotifyJob now)).foldl add_job
            (removeNotifyJobs jobs) from by
      rw [reschedule_queue_notifications]
      exact (List.foldl_map _ _ _ _).symm]
    rw [removeNotify_foldl _ _ hstarts, removeNotify_idem]
  · intro hnd
    rw [reschedule_eq_append now db jobs hnd, List.filter_append]
    have h1 : (removeNotifyJobs jobs).filter (fun j => pyStartsWith j.id "notify_") = [] := by
      apply List.filter_eq_nil_iff.mpr
      intro j hj
      have := (List.mem_filter.mp hj).2
      simp only [Bool.not_eq_true'] at this
      simp [this]
    have h2 : (((uncalledByPriority db).take 3).map (mkNotifyJob now)).filter
        (fun j => pyStartsWith j.id "notify_")
        = ((uncalledByPriority db).take 3).map (mkNotifyJob now) :=
      List.filter_eq_self.mpr hstarts
    rw [h1, h2, List.nil_append]
  · intro hjobs hnd
    rw [reschedule_eq_append now db jobs hnd, List.map_append]
    refine List.Nodup.append ?_ (top3_jobs_ids_nodup now db hnd) ?_
    · exact List.Nodup.sublist ((List.filter_sublist jobs).map Job.id) hjobs
    · intro x hx1 hx2
      rcases List.mem_map.mp hx1 with ⟨j, hj, hjx⟩
      rcases List.mem_map.mp hx2 with ⟨t, ht, htx⟩
      have hjf : pyStartsWith j.id "notify_" = false := by
        have := (List.mem_filter.mp hj).2
        simp only [Bool.not_eq_true'] at this
        exact this
      exact ne_id_of_startsWith (hstarts t ht) hjf (htx.trans hjx.symm)

/-- C3 witness: the job-set characterisation and duplicate-freedom
discharged on a concrete two-patient snapshot. -/
theorem resync_same_instant_idempotent_witness :
    (reschedule_queue_notifications 0 [patHighEarly, patLowLate] []).filter
        (fun j => pyStartsWith j.id "notify_")
      = ((uncalledByPriority [patHighEarly, patLowLate]).take 3).map (mkNotifyJob 0)
    ∧ ((reschedule_queue_notifications 0 [patHighEarly, patLowLate] []).map Job.id).Nodup :=
  ⟨(resync_same_instant_idempotent 0 [patHighEarly, patLowLate] []).2.1 (by decide),
   (resync_same_instant_idempotent 0 [patHighEarly, patLowLate] []).2.2
      (by decide) (by decide)⟩

/-- C3 counterexample to the claim as stated: a second resync 60 seconds
later against the unchanged snapshot re-registers the same entity with a
shifted `fireAt` (5760 instead of 5700), because `fireAt` is recomputed
from the wall clock at call time. -/
theorem resync_counterexample_churn :
    reschedule_queue_notifications 0 [patHighEarly] []
      = [{ id := "notify_1", fireAt := 5700 }]
    ∧ reschedule_queue_notifications 60 [patHighEarly]
        (reschedule_queue_notifications 0 [patHighEarly] [])
      = [{ id := "notify_1", fireAt := 5760 }]
    ∧ (5700 : Int) ≠ 5760 :=
  ⟨by decide, by decide, by decide⟩

/-- C4 (amended): each of the first three non-served entities gets a job
at `now + (eta - 5) minutes`; a `fireAt` that lies strictly in the past is
clamped to `now + 30` seconds, one that is `now` or later is kept as
computed, so every notify job registered by a resync fires at or after
`now` — never strictly in the past. -/
theorem resync_lead_and_clamp :
  ∀ (now : Int) (db : List DbPatient) (jobs : List Job) (p : DbPatient),
    (∀ j ∈ reschedule_queue_notifications now db jobs,
        pyStartsWith j.id "notify_" = true → now ≤ j.fireAt)
    ∧ (p ∈ (uncalledByPriority db).take 3 →
        ((db.filter (fun q => !q.called)).map (fun q => notifyJobId q.id)).Nodup →
        ({ id := notifyJobId p.id, fireAt := notificationTime now p.eta } : Job)
          ∈ reschedule_queue_notifications now db jobs)
    ∧ (now ≤ now + (p.eta - 5) * 60 →
        notificationTime now p.eta = now + (p.eta - 5) * 60)
    ∧ (now + (p.eta - 5) * 60 < now → notificationTime now p.eta = now + 30)
    ∧ now ≤ notificationTime now p.eta := by
  intro now db jobs p
  refine ⟨?_, ?_, ?_, ?_, ?_⟩
  · intro j hj hs
    rw [show reschedule_queue_notifications now db jobs
        = (((uncalledByPriority db).take 3).map (mkNotifyJob now)).foldl add_job
            (removeNotifyJobs jobs) from by
      rw [reschedule_queue_notifications]
      exact (List.foldl_map _ _ _ _).symm] at hj
    rcases mem_foldl_add_job _ _ hj with h1 | h1
    · have := (List.mem_filter.mp h1).2
      rw [hs] at this
      cases this
    · rcases List.mem_map.mp h1 with ⟨q, _, hq⟩
      have : j.fireAt = notificationTime now q.eta := by rw [← hq]; rfl
      rw [this]
      unfold notificationTime
      dsimp only
      split <;> omega
  · intro hp hnd
    rw [reschedule_eq_append now db jobs hnd]
    apply List.mem_append_right
    exact List.mem_map.mpr ⟨p, hp, rfl⟩
  · intro h
    unfold notificationTime
    dsimp only
    rw [if_neg (by omega)]
  · intro h
    unfold notificationTime
    dsimp only
    rw [if_pos h]
  · unfold notificationTime
    dsimp only
    split <;> omega

/-- C4 witness: on a concrete snapshot the queue-front patient gets
exactly the lead-time job, and its `fireAt` is the unclamped
`now + (eta - 5) minutes`. -/
theorem resync_lead_and_clamp_witness :
    ({ id := notifyJobId patHighEarly.id
       fireAt := notificationTime 0 patHighEarly.eta } : Job)
      ∈ reschedule_queue_notifications 0 [patHighEarly] []
    ∧ notificationTime 0 patHighEarly.eta = 0 + (patHighEarly.eta - 5) * 60 :=
  ⟨(resync_lead_and_clamp 0 [patHighEarly] [] patHighEarly).2.1 (by decide) (by decide),
   (resync_lead_and_clamp 0 [patHighEarly] [] patHighEarly).2.2.1 (by decide)⟩

/-- C4 counterexample to the claim as stated: with `eta = 5` the computed
`fireAt` equals `now` — not strictly in the future — yet the job is
registered at `now` itself, not clamped to `now + 30`, because the source
clamps only a `fireAt` strictly less than `now`. -/
theorem resync_counterexample_boundary :
    reschedule_queue_notifications 0 [patBoundary] []
      = [{ id := "notify_9", fireAt := 0 }]
    ∧ ¬ ((0:Int) < 0 + ((5:Int) - 5) * 60)
    ∧ ({ id := "notify_9", fireAt := 0 } : Job).fireAt ≠ 0 + 30 :=
  ⟨by decide, by decide, by decide⟩

/-! ## create_patient helper lemmas -/

lemma updateFirst_length (uid : Int) (upd : DbPatient → DbPatient) :
    ∀ db : List DbPatient, (updateFirstByUserId uid upd db).length = db.length := by
  intro db
  induction db with
  | nil => rfl
  | cons p rest ih =>
      unfold updateFirstByUserId
      split
      · simp
      · simp [ih]

lemma updateFirst_map_eq {β : Type} (uid : Int) (upd : DbPatient → DbPatient)
    (f : DbPatient → β) (h : ∀ p, f (upd p) = f p) :
    ∀ db : List DbPatient, (updateFirstByUserId uid upd db).map f = db.map f := by
  intro db
  induction db with
  | nil => rfl
  | cons p rest ih =>
      unfold updateFirstByUserId
      split
      · simp [h]
      · simp [ih]

lemma updateFirst_mem_updated (uid : Int) (upd : DbPatient → DbPatient) :
    ∀ db : List DbPatient,
      db.Pairwise (fun p q => p.user_id ≠ q.user_id) →
      ∀ p ∈ updateFirstByUserId uid upd db, p.user_id = uid →
        (∃ q ∈ db, q.user_id = uid ∧ p = upd q) ∨ (p ∈ db ∧ (upd p).user_id ≠ p.user_id) := by
  intro db
  induction db with
  | nil => intro _ p hp; cases hp
  | cons p0 rest ih =>
      intro hpw p hp hu
      rw [List.pairwise_cons] at hpw
      unfold updateFirstByUserId at hp
      by_cases h0 : p0.user_id = uid
      · rw [if_pos h0] at hp
        rcases List.mem_cons.mp hp with h1 | h1
        · exact Or.inl ⟨p0, List.mem_cons_self _ _, h0, h1⟩
        · exact absurd (hu.trans h0.symm) (hpw.1 p h1).symm.elim
      · rw [if_neg h0] at hp
        rcases List.mem_cons.mp hp with h1 | h1
        · subst h1
          exact absurd hu h0
        · rcases ih hpw.2 p h1 hu with h2 | h2
          · rcases h2 with ⟨q, hq, hq2⟩
            exact Or.inl ⟨q, List.mem_cons_of_mem _ hq, hq2⟩
          · exact Or.inr ⟨List.mem_cons_of_mem _ h2.1, h2.2⟩

/-- C10: admitting a user id that is already queued updates the existing
row in place: the queue keeps its length, every row keeps its `id`,
`queued_at`, `user_id` and `called` values (so the re-admitted entity keeps
its arrival-order tie-break position), user ids stay pairwise distinct,
and the matching row carries the new name, age, symptoms, recomputed
triage score and severity, new eta and language. -/
theorem create_patient_upsert_in_place :
  ∀ (db : List DbPatient) (inp : PatientCreate) (eta : Int) (newId : Nat) (now : Int),
    db.Pairwise (fun p q => p.user_id ≠ q.user_id) →
    (∃ p ∈ db, p.user_id = inp.user_id) →
    (create_patient db inp eta newId now).length = db.length
    ∧ (create_patient db inp eta newId now).map
          (fun p => (p.id, p.queued_at, p.user_id, p.called))
        = db.map (fun p => (p.id, p.queued_at, p.user_id, p.called))
    ∧ (create_patient db inp eta newId now).Pairwise (fun p q => p.user_id ≠ q.user_id)
    ∧ (∀ p ∈ create_patient db inp eta newId now, p.user_id = inp.user_id →
        p.name = inp.name ∧ p.age = inp.age ∧ p.symptoms = inp.symptoms
        ∧ p.triage_score = get_triage_score inp.symptoms inp.age
        ∧ p.severity_level = get_severity_level (get_triage_score inp.symptoms inp.age)
        ∧ p.eta = eta ∧ p.lang_code = inp.lang_code) := by
  intro db inp eta newId now hpw hex
  have hany : db.any (fun p => p.user_id == inp.user_id) = true := by
    rcases hex with ⟨p, hp, he⟩
    exact List.any_eq_true.mpr ⟨p, hp, beq_iff_eq.mpr he⟩
  have hcp : create_patient db inp eta newId now
      = updateFirstByUserId inp.user_id (applyPatientUpdate inp eta) db := by
    simp only [create_patient, hany, if_true]
    rfl
  rw [hcp]
  have hmap := updateFirst_map_eq inp.user_id (applyPatientUpdate inp eta)
    (fun p => (p.id, p.queued_at, p.user_id, p.called)) (fun p => rfl) db
  refine ⟨updateFirst_length _ _ db, hmap, ?_, ?_⟩
  · have huid := updateFirst_map_eq inp.user_id (applyPatientUpdate inp eta)
      (fun p => p.user_id) (fun p => rfl) db
    have h1 : ((updateFirstByUserId inp.user_id (applyPatientUpdate inp eta) db).map
        (fun p => p.user_id)).Pairwise (fun a b => a ≠ b) := by
      rw [huid]
      exact (List.pairwise_map).mpr hpw
    exact (List.pairwise_map).mp h1
  · intro p hp hu
    rcases updateFirst_mem_updated inp.user_id (applyPatientUpdate inp eta) db hpw p hp hu
      with h1 | h1
    · rcases h1 with ⟨q, _, _, hq⟩
      subst hq
      exact ⟨rfl, rfl, rfl, rfl, rfl, rfl, rfl⟩
    · exact absurd rfl h1.2

/-- C10 witness: re-admitting user 101 on a concrete two-patient queue
keeps length, positions and identities, and rewrites the matched row. -/
theorem create_patient_upsert_in_place_witness :
    (create_patient [patHighEarly, patLowLate]
        { user_id := 101, name := "A2", age := 41, symptoms := ["headache"]
          lang_code := "fr" } 33 7 999).map
        (fun p => (p.id, p.queued_at, p.user_id, p.called))
      = [patHighEarly, patLowLate].map (fun p => (p.id, p.queued_at, p.user_id, p.called))
    ∧ (create_patient [patHighEarly, patLowLate]
        { user_id := 101, name := "A2", age := 41, symptoms := ["headache"]
          lang_code := "fr" } 33 7 999).length = 2 :=
  ⟨(create_patient_upsert_in_place [patHighEarly, patLowLate]
      { user_id := 101, name := "A2", age := 41, symptoms := ["headache"]
        lang_code := "fr" } 33 7 999 (by decide)
      ⟨patHighEarly, List.mem_cons_self _ _, by decide⟩).2.1,
   (create_patient_upsert_in_place [patHighEarly, patLowLate]
      { user_id := 101, name := "A2", age := 41, symptoms := ["headache"]
        lang_code := "fr" } 33 7 999 (by decide)
      ⟨patHighEarly, List.mem_cons_self _ _, by decide⟩).1⟩

end Careq
